import Mathlib

/-!
# Verification of the EnergyX booking & scheduling engine

Shallow embedding of the workout booking backend
(`src/models/Workout.js`, `src/models/Feedback.js`,
`src/controllers/workoutController.js`, `src/controllers/coachController.js`,
`src/controllers/feedbackController.js`) together with proofs checking the
natural-language specification against it.

Conventions of the embedding:
* MongoDB ObjectIds become `Nat`.
* JavaScript `Date` values become `Int` milliseconds since the Unix epoch.
  The controllers store the requested IST wall-clock time *as if* it were
  UTC (they build it with `Date.UTC(...)` from the civil components and
  compare it against `new Date() + istOffsetMs`); the embedding reproduces
  those exact comparisons.
* A mongoose collection becomes a `List` of records; `save` of a new
  document becomes `insertWorkout` (running the schema validators and the
  unique index), `save` of a fetched document becomes `saveWorkoutUpdate`.
* An HTTP response becomes `HttpResult` (status code plus the `message` /
  `error` string of the JSON body; success bodies are abbreviated by a tag).
* The token check `verifyToken` is called by the workout controller but its
  definition is not part of the repository sources; per the specification the
  identity provider is an external collaborator that "supplies `{id, role}`
  for the authenticated caller", so the authenticated caller's id and role
  are inputs of the embedded handlers.
-/

namespace EnergyX

/-- HTTP outcome: the status code plus the body's `message`/`error` string
(for success responses a short tag stands for the JSON payload). -/
structure HttpResult where
  status : Nat
  message : String
deriving Repr, DecidableEq

/-- Errors raised by the storage layer: a mongoose validator failure, or a
MongoDB duplicate-key error (`error.code === 11000`) from a unique index. -/
inductive DbError where
  | validation
  | duplicateKey
deriving Repr, DecidableEq

/-- `Workout` document, from `WorkoutSchema` in `src/models/Workout.js`. -/
structure Workout where
  id : Nat
  name : String
  activity : String
  description : String
  dateTime : Int
  duration : Int := 60
  coachId : Nat
  clientId : Option Nat := none
  state : String := "AVAILABLE"
  feedbackId : Option Nat := none
deriving Repr, DecidableEq

/-- `Feedback` document, from `feedbackSchema` in `src/models/Feedback.js`. -/
structure Feedback where
  id : Nat
  workoutId : Nat
  clientId : Nat
  coachId : Nat
  comment : String
  rating : Int
  authorRole : String
deriving Repr, DecidableEq

/-- The coach attributes consumed by the engine, from the `User` model
(`role: 'COACH'` documents): preferred activity and the published weekly
slot template `availableTimeSlots`. -/
structure Coach where
  id : Nat
  firstName : String
  lastName : String
  preferableActivity : String
  availableTimeSlots : List String
deriving Repr, DecidableEq

/-- The `enum` of `WorkoutSchema.state` (`src/models/Workout.js` line 34),
verbatim: the two feedback-waiting states appear only merged into a single
string. -/
def workoutStateEnum : List String :=
  ["AVAILABLE", "IN_PROGRESS", "SCHEDULED",
   "WAITING FOR FEEDBACK FROM CLIENT, WAITING FOR FEEDBACK FROM COACH",
   "FINISHED", "CANCELED"]

/-- The unique index `WorkoutSchema.index({ coachId: 1, dateTime: 1 },
{ unique: true })` (`src/models/Workout.js` line 41): a new document
collides when any stored document — of any state — has the same
`(coachId, dateTime)` pair. -/
def hasKeyConflict (store : List Workout) (coachId : Nat) (dateTime : Int) : Bool :=
  store.any (fun w => w.coachId == coachId && w.dateTime == dateTime)

/-- `save` of a new `Workout`: mongoose first runs the schema validators
(`state` must be in the enum; the `dateTime` validator requires a future
instant for new documents), then MongoDB enforces the unique
`(coachId, dateTime)` index. -/
def insertWorkout (store : List Workout) (now : Int) (w : Workout) :
    Except DbError (List Workout) :=
  if w.state ∈ workoutStateEnum then
    if now < w.dateTime then
      if hasKeyConflict store w.coachId w.dateTime then
        .error .duplicateKey
      else
        .ok (store ++ [w])
    else .error .validation
  else .error .validation

/-- `save` of an already-stored `Workout` fetched by `_id`: validators run
again (the `dateTime` validator passes since `isNew` is false).  Every
update in this codebase leaves `(coachId, dateTime)` unchanged, so the
unique index cannot fire on updates. -/
def saveWorkoutUpdate (store : List Workout) (w : Workout) :
    Except DbError (List Workout) :=
  if w.state ∈ workoutStateEnum then
    .ok (store.map (fun w2 => if w2.id == w.id then w else w2))
  else .error .validation

/-- A fresh `_id` for a newly minted document. -/
def freshWorkoutId (store : List Workout) : Nat :=
  store.foldl (fun a w => max a w.id) 0 + 1

/-- The process-wide offset `istOffsetMs = 5.5 * 60 * 60 * 1000` used by all
three workout handlers. -/
def istOffsetMs : Int := 19800000

/-! ## Civil time helpers

The controllers build instants with `Date.UTC(year, month-1, day, hours,
minutes)` and render times of day with
`toLocaleTimeString("en-US", { hour: "numeric", minute: "2-digit",
hour12: true, timeZone: "UTC" })`, i.e. `"h:mm AM"`/`"h:mm PM"`. -/

/-- Gregorian leap-year rule (as implemented by the JavaScript `Date`). -/
def isLeapYear (y : Nat) : Bool :=
  (y % 4 == 0 && y % 100 != 0) || y % 400 == 0

/-- Number of days of month `m` (1–12) in year `y`. -/
def daysInMonth (y m : Nat) : Nat :=
  if m == 2 then (if isLeapYear y then 29 else 28)
  else if m == 4 || m == 6 || m == 9 || m == 11 then 30
  else 31

/-- Days from 1970-01-01 to the civil date `y-m-d` (proleptic Gregorian,
`y ≥ 1`, `1 ≤ m ≤ 12`); the standard era-based algorithm. -/
def daysFromCivil (y m d : Nat) : Int :=
  let y' : Int := (y : Int) - (if m ≤ 2 then 1 else 0)
  let era : Int := y' / 400
  let yoe : Int := y' - era * 400
  let mp : Int := ((m : Int) + 9) % 12
  let doy : Int := (153 * mp + 2) / 5 + (d : Int) - 1
  let doe : Int := yoe * 365 + yoe / 4 - yoe / 100 + doy
  era * 146097 + doe - 719468

/-- `Date.UTC(y, m-1, d, hh, mm)` in milliseconds.  Like the JavaScript
function it is linear in the hour/minute components, so out-of-range values
roll over into the date. -/
def dateUTC (y m d hh mm : Nat) : Int :=
  daysFromCivil y m d * 86400000 + (hh : Int) * 3600000 + (mm : Int) * 60000

/-- Two-digit zero-padded rendering (`padStart(2, '0')` / `"2-digit"`). -/
def pad2 (n : Nat) : String :=
  if n < 10 then "0" ++ toString n else toString n

/-- 12-hour clock label `"h:mm AM"`/`"h:mm PM"` for an hour/minute pair, the
format produced both by `convertTo12HourFormat` in the workout controller
and by the `toLocaleTimeString` calls (hour without leading zero, `12` for
hour `0`, two-digit minutes). -/
def format12Hour (hour minute : Nat) : String :=
  let period := if 12 ≤ hour then "PM" else "AM"
  let hour12 := if hour % 12 == 0 then 12 else hour % 12
  toString hour12 ++ ":" ++ pad2 minute ++ " " ++ period

/-- `toLocaleTimeString("en-US", { hour12: true, timeZone: "UTC" })` applied
to an epoch instant: the 12-hour label of its UTC time of day. -/
def formatTimeOfDay (t : Int) : String :=
  let minuteOfDay := ((t.ediv 60000).emod 1440).toNat
  format12Hour (minuteOfDay / 60) (minuteOfDay % 60)

/-- `s.split(sep)` for a single-character separator (the only kind these
handlers use), recursing over the character list: splitting the empty
string yields `[""]`, a trailing separator yields a trailing `""`, exactly
as in JavaScript. -/
def splitOnCharAux (sep : Char) : List Char → List Char → List String
  | [], acc => [acc.reverse.asString]
  | c :: cs, acc =>
    if c == sep then acc.reverse.asString :: splitOnCharAux sep cs []
    else splitOnCharAux sep cs (c :: acc)

/-- `s.split(sep)` for a single-character separator. -/
def splitOnChar (sep : Char) (s : String) : List String :=
  splitOnCharAux sep s.data []

/-- `s.startsWith(p)`. -/
def jsStartsWith (s p : String) : Bool :=
  p.data.isPrefixOf s.data

/-- `s.trim()` (over the ASCII whitespace these inputs can contain). -/
def jsTrim (s : String) : String :=
  (((s.data.dropWhile Char.isWhitespace).reverse.dropWhile Char.isWhitespace).reverse).asString

/-- Is the string nonempty and made of ASCII digits only? -/
def allDigits (s : String) : Bool :=
  !s.data.isEmpty && s.data.all Char.isDigit

/-- Value of a digit string (the value `Number(s)` takes on such strings). -/
def toNatDigits (s : String) : Nat :=
  s.data.foldl (fun a c => a * 10 + (c.toNat - 48)) 0

/-- `Number(s)` for the strings these handlers feed it: `0` on the empty
string, the numeric value on digit strings, and `NaN` (here `none`)
otherwise. -/
def jsNumber (s : String) : Option Nat :=
  if s = "" then some 0
  else if allDigits s then some (toNatDigits s) else none

/-- `s.split(':').map(Number)` destructured into hour and minute: the first
two colon-separated components, `none` when either is `NaN` (a missing
minute component is `undefined`, hence `NaN`). -/
def parseHM (s : String) : Option (Nat × Nat) :=
  match splitOnChar ':' s with
  | h :: m :: _ =>
    match jsNumber h, jsNumber m with
    | some hv, some mv => some (hv, mv)
    | _, _ => none
  | _ => none

/-- `convertTo12HourFormat` from `bookNewWorkout`
(`src/controllers/workoutController.js` lines 199–204): converts 24-hour
`"HH:MM"` to the coach template's 12-hour label convention.  On inputs with
non-numeric components the JavaScript yields a `"NaN:NaN …"` string that
matches no stored template label; the embedding returns such a label. -/
def convertTo12HourFormat (time24 : String) : String :=
  match parseHM time24 with
  | some (hour, minute) => format12Hour hour minute
  | none => "NaN:NaN AM"

/-! ## Booking Transactor — `bookNewWorkout`
(`src/controllers/workoutController.js` lines 160–381) -/

/-- The date validation of `bookNewWorkout` (lines 236–264): 4-digit year,
2-digit month 01–12, 2-digit day 01–31, then the `new Date(y, m-1, d)`
round-trip check (which also rejects years below 100, since the `Date`
constructor maps those into 1900–1999).  When `date.split('-')` yields
fewer than three parts the JavaScript dereferences `undefined.length` and
the thrown `TypeError` reaches the handler's catch, which answers 500. -/
def validateBookDate (date : String) : Except HttpResult (Nat × Nat × Nat) :=
  let parts := splitOnChar '-' date
  let y := parts.headD ""
  if !(y.length == 4 && allDigits y) then
    .error ⟨400, "Year should be a 4-digit number."⟩
  else
    match parts with
    | _ :: m :: rest =>
      if !(m.length == 2 && allDigits m && 1 ≤ toNatDigits m && toNatDigits m ≤ 12) then
        .error ⟨400, "Month should be a 2-digit number between 01 and 12."⟩
      else
        match rest with
        | d :: _ =>
          if !(d.length == 2 && allDigits d && 1 ≤ toNatDigits d && toNatDigits d ≤ 31) then
            .error ⟨400, "Day should be a 2-digit number between 01 and 31."⟩
          else if toNatDigits y < 100 || daysInMonth (toNatDigits y) (toNatDigits m) < toNatDigits d then
            .error ⟨400, "Invalid date. Please provide a valid date."⟩
          else
            .ok (toNatDigits y, toNatDigits m, toNatDigits d)
        | [] => .error ⟨500, "Internal server error."⟩
    | _ => .error ⟨500, "Internal server error."⟩

/-- `startTime` extraction from the posted `timeSlot` (lines 220–225): the
part before a `"-"` when one is present, trimmed; otherwise the whole
string. -/
def bookStartTime (timeSlot : String) : String :=
  match splitOnChar '-' timeSlot with
  | first :: _ :: _ => jsTrim first
  | _ => timeSlot

/-- The authenticated caller of a workout handler, as supplied to the
handler.

Modelled from the spec: `verifyToken` is called by every workout handler
but is not defined in the repository sources; the specification's §6 makes
identity an external collaborator that "supplies `{id, role}` for the
authenticated caller on every mutating operation; the core trusts this
value" (the `role` is then re-read from the user document, which this
structure also stands for). -/
structure Caller where
  id : Nat
  role : String
deriving Repr, DecidableEq

/-- The body of a booking request. -/
structure BookRequest where
  date : String
  timeSlot : String
deriving Repr, DecidableEq

/-- `bookNewWorkout` (lines 160–381).  Inputs: the workout store, the real
current instant `now` (UTC milliseconds), the authenticated caller, the
request body, and the result `coach?` of
`User.findOne({ _id: coachId, role: "COACH" })`.  Output: the HTTP result
and the store after the call.

The `none` branch of `parseHM` reproduces the `NaN` path: with `NaN` time
components the lead-time comparison is false (so no 400), and
`requestedISTDateTime.toISOString()` then throws `RangeError` on the
invalid date, which the catch answers with 500. -/
def bookNewWorkout (store : List Workout) (now : Int) (caller : Caller)
    (req : BookRequest) (coach? : Option Coach) : HttpResult × List Workout :=
  if !(caller.role == "CLIENT") then
    (⟨403, "Only clients can book workouts"⟩, store)
  else if req.date == "" || req.timeSlot == "" then
    (⟨400, "coachId, date, and timeSlot are required."⟩, store)
  else
    match coach? with
    | none => (⟨404, "Coach not found."⟩, store)
    | some coach =>
      let formattedTime := convertTo12HourFormat req.timeSlot
      match coach.availableTimeSlots.find? (fun slot => jsStartsWith slot formattedTime) with
      | none => (⟨404, "Coach not available at the selected time slot."⟩, store)
      | some _ =>
        match validateBookDate req.date with
        | .error e => (e, store)
        | .ok (year, month, day) =>
          match parseHM (bookStartTime req.timeSlot) with
          | none => (⟨500, "Internal server error."⟩, store)
          | some (hours, minutes) =>
            let requestedISTDateTime := dateUTC year month day hours minutes
            let currentISTTime := now + istOffsetMs
            if requestedISTDateTime < currentISTTime + 30 * 60000 then
              (⟨400, "Workouts must be scheduled at least 30 minutes in advance from your local time."⟩, store)
            else
              let t := requestedISTDateTime
              if store.any (fun w => w.clientId == some caller.id && w.dateTime == t &&
                  (w.state == "SCHEDULED" || w.state == "IN_PROGRESS")) then
                (⟨409, "You already have a workout scheduled at this time."⟩, store)
              else if store.any (fun w => w.coachId == coach.id && w.dateTime == t &&
                  (w.state == "SCHEDULED" || w.state == "IN_PROGRESS")) then
                (⟨409, "Coach already has a workout scheduled at this time slot."⟩, store)
              else
                match store.find? (fun w => w.coachId == coach.id && w.dateTime == t &&
                    w.state == "AVAILABLE") with
                | some aw =>
                  match saveWorkoutUpdate store { aw with clientId := some caller.id, state := "SCHEDULED" } with
                  | .ok store' => (⟨200, "booked (reused AVAILABLE slot)"⟩, store')
                  | .error .duplicateKey =>
                    (⟨409, "This time slot is already booked. Please try a different time or date."⟩, store)
                  | .error .validation => (⟨500, "Internal server error."⟩, store)
                | none =>
                  let newWorkout : Workout :=
                    { id := freshWorkoutId store
                      name := coach.preferableActivity ++ " class"
                      activity := coach.preferableActivity
                      description := coach.preferableActivity ++ " class with coach " ++
                        coach.firstName ++ " " ++ coach.lastName
                      dateTime := t
                      coachId := coach.id
                      clientId := some caller.id
                      state := "SCHEDULED" }
                  match insertWorkout store now newWorkout with
                  | .ok store' => (⟨201, "booked (new workout)"⟩, store')
                  | .error .duplicateKey =>
                    (⟨409, "This time slot is already booked. Please try a different time or date."⟩, store)
                  | .error .validation => (⟨500, "Internal server error."⟩, store)

/-! ## Cancellation Handler — `cancelWorkout`
(`src/controllers/workoutController.js` lines 471–557) -/

/-- `cancelWorkout`: finds the workout by id; authorizes the caller as its
coach or client; for a client requires state `SCHEDULED`; enforces the
12-hour cutoff `(workoutTime - now) / 3600000 < 12`; then either marks the
workout `CANCELED` and inserts a fresh `AVAILABLE` sibling (client), or
hard-deletes it (coach).  Any error thrown during the writes reaches the
handler's catch, which answers 400 "Error cancelling workout"; writes
already persisted stay persisted. -/
def cancelWorkout (store : List Workout) (now : Int) (userId workoutId : Nat) :
    HttpResult × List Workout :=
  match store.find? (fun w => w.id == workoutId) with
  | none => (⟨404, "Workout not found"⟩, store)
  | some w =>
    let isCoach := w.coachId == userId
    let isClient := w.clientId == some userId
    if !isCoach && !isClient then
      (⟨403, "Not authorized to cancel this workout"⟩, store)
    else if isClient && w.state != "SCHEDULED" then
      (⟨400, "Only scheduled workouts can be cancelled"⟩, store)
    else if w.dateTime - now < 12 * 3600000 then
      (⟨400, "Workout can only be cancelled 12 hours in advance"⟩, store)
    else if isClient then
      match saveWorkoutUpdate store { w with state := "CANCELED" } with
      | .error _ => (⟨400, "Error cancelling workout"⟩, store)
      | .ok store1 =>
        let newAvailableWorkout : Workout :=
          { id := freshWorkoutId store1
            name := w.name
            activity := w.activity
            description := w.description
            dateTime := w.dateTime
            coachId := w.coachId
            state := "AVAILABLE" }
        match insertWorkout store1 now newAvailableWorkout with
        | .ok store2 => (⟨200, "Workout cancelled and new slot made available"⟩, store2)
        | .error _ => (⟨400, "Error cancelling workout"⟩, store1)
    else
      (⟨200, "Workout cancelled and removed from availability"⟩,
        store.filter (fun w2 => !(w2.id == workoutId)))

/-! ## Listing with lazy state promotion — `getUserWorkouts`
(`src/controllers/workoutController.js` lines 383–468) -/

/-- Stable insertion into a `dateTime`-ascending list. -/
def insertByDateTime (w : Workout) : List Workout → List Workout
  | [] => [w]
  | x :: xs => if w.dateTime < x.dateTime then w :: x :: xs else x :: insertByDateTime w xs

/-- `.sort({ dateTime: 1 })`: stable ascending sort by `dateTime`. -/
def sortByDateTime : List Workout → List Workout
  | [] => []
  | x :: xs => insertByDateTime x (sortByDateTime xs)

/-- The promotion loop of `getUserWorkouts` (lines 428–442): for each listed
workout whose session has ended (`currentISTTime >= dateTime +
duration*60000`) and whose state is `SCHEDULED`, set the state to
`"WAITING FOR FEEDBACK FROM CLIENT"` and save.  A failing save throws out
of the loop; `.error` carries the store at the moment of the throw. -/
def promoteLoop (nowIST : Int) : List Workout → List Workout →
    Except (List Workout) (List Workout)
  | store, [] => .ok store
  | store, w :: rest =>
    if nowIST ≥ w.dateTime + w.duration * 60000 && w.state == "SCHEDULED" then
      match saveWorkoutUpdate store { w with state := "WAITING FOR FEEDBACK FROM CLIENT" } with
      | .error _ => .error store
      | .ok store' => promoteLoop nowIST store' rest
    else promoteLoop nowIST store rest

/-- `getUserWorkouts`: selects the caller's workouts (a coach's list
excludes `AVAILABLE` placeholders), sorts them by `dateTime`, runs the
promotion loop, and returns the projections.  A throw inside the loop
reaches the catch, which answers 500 "Error fetching workouts"; the
returned triple is (HTTP result, store after the call, returned list —
empty on error). -/
def getUserWorkouts (store : List Workout) (now : Int) (caller : Caller) :
    HttpResult × List Workout × List Workout :=
  let currentISTTime := now + istOffsetMs
  if !(caller.role == "CLIENT") && !(caller.role == "COACH") then
    (⟨400, "Invalid user role"⟩, store, [])
  else
    let workouts :=
      if caller.role == "CLIENT" then
        sortByDateTime (store.filter (fun w => w.clientId == some caller.id))
      else
        sortByDateTime (store.filter (fun w => w.coachId == caller.id && w.state != "AVAILABLE"))
    match promoteLoop currentISTTime store workouts with
    | .error storeAtThrow => (⟨500, "Error fetching workouts"⟩, storeAtThrow, [])
    | .ok store' => (⟨200, "content"⟩, store', workouts)

/-! ## Availability Resolver — `getAvailableSlots`
(`src/controllers/coachController.js` lines 42–144) -/

/-- The exact state list of the occupied-workout query on line 113 of
`src/controllers/coachController.js`, verbatim — including the misspelled
third entry `"WAITING FOR FEEDBACK FROM CIENT"`. -/
def occupiedStatesQuery : List String :=
  ["SCHEDULED", "IN_PROGRESS", "WAITING FOR FEEDBACK FROM CIENT",
   "WAITING FOR FEEDBACK FROM COACH"]

/-- `^\d{4}-\d{2}-\d{2}$`, the `dateRegex` pre-check of `getAvailableSlots`. -/
def matchesDateRegex (date : String) : Bool :=
  match splitOnChar '-' date with
  | [y, m, d] => y.length == 4 && allDigits y && m.length == 2 && allDigits m &&
      d.length == 2 && allDigits d
  | _ => false

/-- `getAvailableSlots`: validates the date (regex, then the per-part
checks; this handler has no `new Date(y, m-1, d)` round-trip check, so a
calendar-invalid day like `02-30` survives validation, produces an invalid
ISO instant, and the query on it throws — answered 500); rejects past
dates against the UTC start of the current day; then subtracts from the
coach's template the `"start - end"` labels of the coach's workouts of
that civil day whose state is in `occupiedStatesQuery`.  The coach lookup
result is only examined *after* the date checks, as in the source.
Returns the remaining labels in template order. -/
def getAvailableSlots (store : List Workout) (now : Int) (coach? : Option Coach)
    (date : String) : Except HttpResult (List String) :=
  if !matchesDateRegex date then
    .error ⟨400, "Invalid date format. Please use YYYY-MM-DD format."⟩
  else
    match splitOnChar '-' date with
    | [y, m, d] =>
      if !(1 ≤ toNatDigits m && toNatDigits m ≤ 12) then
        .error ⟨400, "Month should be a 2-digit number between 01 and 12."⟩
      else if !(1 ≤ toNatDigits d && toNatDigits d ≤ 31) then
        .error ⟨400, "Day should be a 2-digit number between 01 and 31."⟩
      else if daysInMonth (toNatDigits y) (toNatDigits m) < toNatDigits d then
        .error ⟨500, "Error fetching available slots"⟩
      else
        let requestedDate := dateUTC (toNatDigits y) (toNatDigits m) (toNatDigits d) 0 0
        let today := (now.ediv 86400000) * 86400000
        if requestedDate < today then
          .error ⟨400, "You cannot check available slots for past dates. Please select today or a future date."⟩
        else
          match coach? with
          | none => .error ⟨404, "Coach not found"⟩
          | some coach =>
            let startOfDay := requestedDate
            let endOfDay := requestedDate + 86399999
            let bookedWorkouts := store.filter (fun w =>
              w.coachId == coach.id && startOfDay ≤ w.dateTime && w.dateTime ≤ endOfDay &&
              occupiedStatesQuery.contains w.state)
            let bookedSlots := bookedWorkouts.map (fun w =>
              formatTimeOfDay w.dateTime ++ " - " ++ formatTimeOfDay (w.dateTime + w.duration * 60000))
            .ok (coach.availableTimeSlots.filter (fun slot => !bookedSlots.contains slot))
    | _ => .error ⟨400, "Invalid date format. Please use YYYY-MM-DD format."⟩

/-! ## Feedback-Triggered Transition — `giveFeedback`
(`src/controllers/feedbackController.js`) -/

/-- A fresh `_id` for a new `Feedback` document. -/
def freshFeedbackId (fstore : List Feedback) : Nat :=
  fstore.foldl (fun a f => max a f.id) 0 + 1

/-- The body of a feedback request together with the authenticated author
(`req.user` set by the auth middleware). -/
structure FeedbackRequest where
  authorId : Nat
  authorRole : String
  workoutId : Nat
  comment : String
  rating : Int
deriving Repr, DecidableEq

/-- `giveFeedback`, the handler actually mounted on `POST /feedbacks`.
Its first statement (line 7) evaluates
`mongoose.Types.ObjectId.isValid(workoutId)`, but `feedbackController.js`
never imports `mongoose` (its only requires are the `Feedback` and
`Workout` models), so every call throws
`ReferenceError: mongoose is not defined`; the catch answers 500 and
nothing is read or written. -/
def giveFeedback (wstore : List Workout) (fstore : List Feedback)
    (_req : FeedbackRequest) : HttpResult × List Workout × List Feedback :=
  (⟨500, "Internal Server Error."⟩, wstore, fstore)

/-- Lines 10–110 of `giveFeedback`: the guard chain and effects that would
run if the `mongoose` reference on line 7 resolved.  Embedded separately so
the guard logic itself can be compared with the specification: required
fields and rating range; workout lookup; the per-role state guards; the
per-role identity guards; the duplicate guard on `(workoutId, authorRole)`;
then `feedback.save()` followed by the state advance, whose
`workout.save()` runs the schema's `state` enum validator. -/
def giveFeedbackBody (wstore : List Workout) (fstore : List Feedback)
    (req : FeedbackRequest) : HttpResult × List Workout × List Feedback :=
  if req.comment = "" || req.rating == 0 then
    (⟨400, "Please provide all the required fields."⟩, wstore, fstore)
  else if req.rating > 5 || req.rating ≤ 0 then
    (⟨400, "Invalid Rating."⟩, wstore, fstore)
  else
    match wstore.find? (fun w => w.id == req.workoutId) with
    | none => (⟨404, "Workout not found."⟩, wstore, fstore)
    | some workout =>
      if req.authorRole == "CLIENT" && workout.state != "WAITING FOR FEEDBACK FROM CLIENT" then
        (⟨400, "Feedback can only be submitted when the workout is in 'WAITING FOR FEEDBACK FROM CLIENT' state."⟩,
          wstore, fstore)
      else if req.authorRole == "COACH" && workout.state != "WAITING FOR FEEDBACK FROM COACH" then
        (⟨400, "Feedback can only be submitted when the workout is in 'WAITING FOR FEEDBACK FROM COACH' state."⟩,
          wstore, fstore)
      else if req.authorRole == "CLIENT" && workout.clientId != some req.authorId then
        (⟨403, "You are not authorized to provide feedback for this workout."⟩, wstore, fstore)
      else if req.authorRole == "COACH" && workout.coachId != req.authorId then
        (⟨403, "You are not authorized to provide feedback for this workout."⟩, wstore, fstore)
      else if fstore.any (fun f => f.workoutId == req.workoutId && f.authorRole == req.authorRole) then
        (⟨400, "You have already provided feedback for this workout."⟩, wstore, fstore)
      else
        match workout.clientId with
        | none =>
          -- `feedbackSchema` requires `clientId`; `feedback.save()` throws
          -- a validation error when the workout has no client.
          (⟨500, "Internal Server Error."⟩, wstore, fstore)
        | some cid =>
          let fstore' := fstore ++
            [{ id := freshFeedbackId fstore
               workoutId := req.workoutId
               clientId := cid
               coachId := workout.coachId
               comment := req.comment
               rating := req.rating
               authorRole := req.authorRole }]
          if req.authorRole == "CLIENT" then
            match saveWorkoutUpdate wstore { workout with state := "WAITING FOR FEEDBACK FROM COACH" } with
            | .ok wstore' => (⟨201, "Feedback submitted successfully."⟩, wstore', fstore')
            | .error _ => (⟨500, "Internal Server Error."⟩, wstore, fstore')
          else if req.authorRole == "COACH" then
            match saveWorkoutUpdate wstore { workout with state := "FINISHED" } with
            | .ok wstore' => (⟨201, "Feedback submitted successfully."⟩, wstore', fstore')
            | .error _ => (⟨500, "Internal Server Error."⟩, wstore, fstore')
          else
            (⟨201, "Feedback submitted successfully."⟩, wstore, fstore')

/-! ## The system as a transition relation

Each request is an independent unit of work against the shared store
(spec §5); a step is one call of one of the four store-mutating handlers,
at an arbitrary instant and with arbitrary request data. -/

/-- Joint state of the `Workout` and `Feedback` collections. -/
structure Sys where
  workouts : List Workout
  feedbacks : List Feedback

/-- One API call against the shared store. -/
inductive Step : Sys → Sys → Prop where
  | book (s : Sys) (now : Int) (caller : Caller) (req : BookRequest) (coach? : Option Coach) :
      Step s ⟨(bookNewWorkout s.workouts now caller req coach?).2, s.feedbacks⟩
  | listWorkouts (s : Sys) (now : Int) (caller : Caller) :
      Step s ⟨(getUserWorkouts s.workouts now caller).2.1, s.feedbacks⟩
  | cancel (s : Sys) (now : Int) (userId workoutId : Nat) :
      Step s ⟨(cancelWorkout s.workouts now userId workoutId).2, s.feedbacks⟩
  | feedback (s : Sys) (req : FeedbackRequest) :
      Step s ⟨(giveFeedback s.workouts s.feedbacks req).2.1,
              (giveFeedback s.workouts s.feedbacks req).2.2⟩

/-- Reachability by any sequence of API calls. -/
def Reachable : Sys → Sys → Prop := Relation.ReflTransGen Step

/-- All stored workout states belong to the schema's `state` enum — the
property every mongoose write enforces. -/
def statesValid (ws : List Workout) : Prop :=
  ∀ w ∈ ws, w.state ∈ workoutStateEnum

/-! ## Concrete sample data

Fixed records used to evaluate the handlers at the inputs the checked
claims speak about. -/

/-- 2026-01-10 10:30 in the stored convention (IST wall clock written as a
UTC instant), the start of the sample slot `"10:30 AM - 11:30 AM"`. -/
def demoInstant : Int := dateUTC 2026 1 10 10 30

/-- A coach (id 5) publishing two template slots. -/
def demoCoach : Coach where
  id := 5
  firstName := "John"
  lastName := "Smith"
  preferableActivity := "Yoga"
  availableTimeSlots := ["10:30 AM - 11:30 AM", "3:00 PM - 4:00 PM"]

/-- A `SCHEDULED` workout of client 7 with coach 5 at `demoInstant`. -/
def demoScheduled : Workout where
  id := 1
  name := "Yoga class"
  activity := "Yoga"
  description := "Yoga class with coach John Smith"
  dateTime := demoInstant
  coachId := 5
  clientId := some 7
  state := "SCHEDULED"

/-! ## Store lemmas -/

/-- A successful insert only adds a document whose state passed the enum
validator. -/
theorem insertWorkout_ok_statesValid {store : List Workout} {now : Int} {w : Workout}
    {store' : List Workout} (h : insertWorkout store now w = .ok store')
    (hs : statesValid store) : statesValid store' := by
  unfold insertWorkout at h
  split at h
  case isTrue henum =>
    split at h
    case isTrue =>
      split at h
      case isTrue => cases h
      case isFalse =>
        cases h
        intro x hx
        rcases List.mem_append.mp hx with hx | hx
        · exact hs x hx
        · simp only [List.mem_singleton] at hx
          subst hx
          exact henum
    case isFalse => cases h
  case isFalse => cases h

/-- A successful update only writes a document whose state passed the enum
validator. -/
theorem saveWorkoutUpdate_ok_statesValid {store : List Workout} {w : Workout}
    {store' : List Workout} (h : saveWorkoutUpdate store w = .ok store')
    (hs : statesValid store) : statesValid store' := by
  unfold saveWorkoutUpdate at h
  split at h
  case isTrue henum =>
    cases h
    intro x hx
    rcases List.mem_map.mp hx with ⟨y, hy, hxy⟩
    by_cases hid : (y.id == w.id) = true
    · rw [if_pos hid] at hxy
      subst hxy
      exact henum
    · rw [if_neg (by simpa using hid)] at hxy
      subst hxy
      exact hs y hy
  case isFalse => cases h

/-- Deleting documents preserves state validity. -/
theorem statesValid_filter {store : List Workout} (p : Workout → Bool)
    (hs : statesValid store) : statesValid (store.filter p) :=
  fun w hw => hs w (List.mem_filter.mp hw).1

/-- An insert whose validators pass and whose key is fresh appends the
document. -/
theorem insertWorkout_ok_of (store : List Workout) (now : Int) (w : Workout)
    (henum : w.state ∈ workoutStateEnum) (hfut : now < w.dateTime)
    (hnodup : hasKeyConflict store w.coachId w.dateTime = false) :
    insertWorkout store now w = .ok (store ++ [w]) := by
  unfold insertWorkout
  rw [if_pos henum, if_pos hfut, if_neg (by rw [hnodup]; exact Bool.false_ne_true)]

/-- Saving the state `"WAITING FOR FEEDBACK FROM CLIENT"` always fails the
`state` enum validator: that string is not an enum member. -/
theorem saveWorkoutUpdate_waiting_client_fails (store : List Workout) (w : Workout) :
    saveWorkoutUpdate store { w with state := "WAITING FOR FEEDBACK FROM CLIENT" } =
      .error .validation := by
  unfold saveWorkoutUpdate
  rw [if_neg]
  intro h
  have hmem : ("WAITING FOR FEEDBACK FROM CLIENT" : String) ∈ workoutStateEnum := h
  exact absurd hmem (by decide)

/-- The promotion loop never manages to change the store: every save it
attempts writes the non-enum state `"WAITING FOR FEEDBACK FROM CLIENT"`,
so it either finishes without having saved anything or throws at the first
promotable workout. -/
theorem promoteLoop_store_unchanged (nowIST : Int) (l store : List Workout) :
    promoteLoop nowIST store l = .ok store ∨ promoteLoop nowIST store l = .error store := by
  induction l with
  | nil => exact Or.inl rfl
  | cons w rest ih =>
    simp only [promoteLoop]
    split
    · rw [saveWorkoutUpdate_waiting_client_fails]
      exact Or.inr rfl
    · exact ih

/-- A throw out of the promotion loop leaves the store as it was. -/
theorem promoteLoop_error_eq {nowIST : Int} {l store s : List Workout}
    (h : promoteLoop nowIST store l = .error s) : s = store := by
  rcases promoteLoop_store_unchanged nowIST l store with h' | h' <;> rw [h] at h' <;> cases h'
  rfl

/-- A completed promotion loop leaves the store as it was. -/
theorem promoteLoop_ok_eq {nowIST : Int} {l store s : List Workout}
    (h : promoteLoop nowIST store l = .ok s) : s = store := by
  rcases promoteLoop_store_unchanged nowIST l store with h' | h' <;> rw [h] at h' <;> cases h'
  rfl

/-- `getUserWorkouts` never changes the store: the lazy state promotion it
attempts always fails the enum validator. -/
theorem getUserWorkouts_store_unchanged (store : List Workout) (now : Int) (caller : Caller) :
    (getUserWorkouts store now caller).2.1 = store := by
  unfold getUserWorkouts
  dsimp only
  split
  · rfl
  · split
    · rename_i sAt heq
      rw [promoteLoop_error_eq heq]
    · rename_i s' heq
      rw [promoteLoop_ok_eq heq]

/-- Every store `bookNewWorkout` can leave behind has only enum states:
each branch returns the input store, a validated update, or a validated
insert. -/
theorem bookNewWorkout_statesValid (store : List Workout) (now : Int) (caller : Caller)
    (req : BookRequest) (coach? : Option Coach) (hs : statesValid store) :
    statesValid (bookNewWorkout store now caller req coach?).2 := by
  unfold bookNewWorkout
  dsimp only
  repeat' split
  all_goals first
    | exact hs
    | (rename_i heq
       exact saveWorkoutUpdate_ok_statesValid heq hs)
    | (rename_i heq
       exact insertWorkout_ok_statesValid heq hs)

/-- Every store `cancelWorkout` can leave behind has only enum states:
each branch returns the input store, a delete, a validated update, or a
validated update followed by a validated insert. -/
theorem cancelWorkout_statesValid (store : List Workout) (now : Int)
    (userId workoutId : Nat) (hs : statesValid store) :
    statesValid (cancelWorkout store now userId workoutId).2 := by
  unfold cancelWorkout
  dsimp only
  repeat' split
  all_goals first
    | exact hs
    | exact statesValid_filter _ hs
    | (rename_i store1 hequpd x2 store2 heqins
       exact insertWorkout_ok_statesValid heqins (saveWorkoutUpdate_ok_statesValid hequpd hs))
    | (rename_i store1 hequpd x2 e2 heqins
       exact saveWorkoutUpdate_ok_statesValid hequpd hs)

/-- `giveFeedback` touches nothing: its first statement throws. -/
theorem giveFeedback_stores_unchanged (wstore : List Workout) (fstore : List Feedback)
    (req : FeedbackRequest) :
    (giveFeedback wstore fstore req).2 = (wstore, fstore) := rfl

/-- One API call preserves state validity of the workout store. -/
theorem step_statesValid {s s' : Sys} (h : Step s s') (hs : statesValid s.workouts) :
    statesValid s'.workouts := by
  cases h with
  | book now caller req coach? => exact bookNewWorkout_statesValid _ _ _ _ _ hs
  | listWorkouts now caller =>
    show statesValid (getUserWorkouts s.workouts now caller).2.1
    rw [getUserWorkouts_store_unchanged]
    exact hs
  | cancel now userId workoutId => exact cancelWorkout_statesValid _ _ _ _ hs
  | feedback req => exact hs

/-- Any sequence of API calls preserves state validity of the workout
store. -/
theorem reachable_statesValid {s s' : Sys} (h : Reachable s s')
    (hs : statesValid s.workouts) : statesValid s'.workouts := by
  induction h with
  | refl => exact hs
  | tail _ hbc ih => exact step_statesValid hbc ih

/-! ## Checked claims -/

/-- Claim C1.  The claim says the `(coachId, dateTime)` uniqueness
constraint excludes `CANCELED` workouts, so that a `CANCELED` workout and a
live workout may coexist at the same pair.  It does not: the unique index
of `src/models/Workout.js` line 41 has no filter on `state`, so inserting a
live (`AVAILABLE`) workout next to a `CANCELED` one at the same
`(coachId, dateTime)` fails with a duplicate-key error — such coexistence
is unrepresentable, and the key-conflict test is true on a store holding
only a `CANCELED` workout. -/
theorem uniqueIndex_blocks_canceled_coexistence :
    insertWorkout [{ demoScheduled with state := "CANCELED" }] 0
        { demoScheduled with id := 2, clientId := none, state := "AVAILABLE" } =
      .error .duplicateKey ∧
    hasKeyConflict [{ demoScheduled with state := "CANCELED" }] 5 demoInstant = true :=
  ⟨rfl, rfl⟩

/-- Claim C2.  The claim says a client cancel of a `SCHEDULED` workout 12+
hours ahead succeeds, keeps the original as `CANCELED`, and persists a new
identical `AVAILABLE` sibling.  Evaluating `cancelWorkout` for client 7 on
the sample workout 13 hours before its start: the original is saved as
`CANCELED`, but the sibling insert then hits the unfiltered unique
`(coachId, dateTime)` index (the `CANCELED` original still holds the key),
the thrown duplicate-key error reaches the catch, and the call answers
400 "Error cancelling workout" with no sibling persisted. -/
theorem clientCancel_fails_to_restore_slot :
    cancelWorkout [demoScheduled] (demoInstant - 13 * 3600000) 7 1 =
      (⟨400, "Error cancelling workout"⟩, [{ demoScheduled with state := "CANCELED" }]) :=
  rfl

/-- Claim C3.  The claim says a guard-passing client feedback persists the
artifact and advances the workout to `WAITING FOR FEEDBACK FROM COACH`,
and a coach feedback advances `WAITING FOR FEEDBACK FROM COACH →
FINISHED`.  In fact (first conjunct) every `giveFeedback` call answers 500
with both stores untouched, because `feedbackController.js` line 7
references `mongoose` without ever importing it.  Even the guard/effect
chain behind that line (second conjunct) persists the client's feedback
artifact but then fails to save the workout state, which the schema's
`state` enum does not contain, answering 500 with the workout state
unchanged; only the coach path (third conjunct) would behave as claimed,
since `FINISHED` is a valid enum state. -/
theorem giveFeedback_client_transition_broken :
    giveFeedback [{ demoScheduled with state := "WAITING FOR FEEDBACK FROM CLIENT" }] []
        ⟨7, "CLIENT", 1, "Great session", 5⟩ =
      (⟨500, "Internal Server Error."⟩,
       [{ demoScheduled with state := "WAITING FOR FEEDBACK FROM CLIENT" }], []) ∧
    giveFeedbackBody [{ demoScheduled with state := "WAITING FOR FEEDBACK FROM CLIENT" }] []
        ⟨7, "CLIENT", 1, "Great session", 5⟩ =
      (⟨500, "Internal Server Error."⟩,
       [{ demoScheduled with state := "WAITING FOR FEEDBACK FROM CLIENT" }],
       [⟨1, 1, 7, 5, "Great session", 5, "CLIENT"⟩]) ∧
    giveFeedbackBody [{ demoScheduled with state := "WAITING FOR FEEDBACK FROM COACH" }] []
        ⟨5, "COACH", 1, "Good effort", 4⟩ =
      (⟨201, "Feedback submitted successfully."⟩,
       [{ demoScheduled with state := "FINISHED" }],
       [⟨1, 1, 7, 5, "Good effort", 4, "COACH"⟩]) :=
  ⟨rfl, rfl, rfl⟩

/-- Claim C4.  The claim says listing persists every due
`SCHEDULED → WAITING_FOR_FEEDBACK_FROM_CLIENT` promotion before returning
the list.  In fact, for a client whose `SCHEDULED` workout has ended
(current IST instant = session end), the promotion save writes the state
`"WAITING FOR FEEDBACK FROM CLIENT"`, which fails the schema's `state`
enum (second conjunct), so the whole request answers 500 with the store
unchanged and no list returned (first conjunct); one millisecond before
the session end the same request succeeds (third conjunct). -/
theorem getUserWorkouts_promotion_throws :
    getUserWorkouts [demoScheduled] (demoInstant - istOffsetMs + 3600000) ⟨7, "CLIENT"⟩ =
      (⟨500, "Error fetching workouts"⟩, [demoScheduled], []) ∧
    saveWorkoutUpdate [demoScheduled]
        { demoScheduled with state := "WAITING FOR FEEDBACK FROM CLIENT" } =
      .error .validation ∧
    (getUserWorkouts [demoScheduled] (demoInstant - istOffsetMs + 3600000 - 1)
        ⟨7, "CLIENT"⟩).1.status = 200 :=
  ⟨rfl, rfl, rfl⟩

/-- Claim C5.  The claim counts workouts in
`WAITING_FOR_FEEDBACK_FROM_CLIENT` among the slot occupiers of
availability resolution.  The query of `coachController.js` line 113 spells
that state `"WAITING FOR FEEDBACK FROM CIENT"`, so a workout in the
correctly spelled state never matches: its slot is reported available
(first conjunct), while the same workout in state `SCHEDULED` does occupy
the slot (second conjunct); the misspelling is visible in the query's
state list itself (third conjunct). -/
theorem availableSlots_feedback_client_state_not_occupied :
    getAvailableSlots [{ demoScheduled with state := "WAITING FOR FEEDBACK FROM CLIENT" }] 0
        (some demoCoach) "2026-01-10" =
      .ok ["10:30 AM - 11:30 AM", "3:00 PM - 4:00 PM"] ∧
    getAvailableSlots [demoScheduled] 0 (some demoCoach) "2026-01-10" =
      .ok ["3:00 PM - 4:00 PM"] ∧
    occupiedStatesQuery.contains "WAITING FOR FEEDBACK FROM CLIENT" = false :=
  ⟨rfl, rfl, rfl⟩

/-- Claim C6.  A cancel request by the workout's coach or client on a
workout whose `dateTime` is strictly less than 12 hours after the current
instant is rejected with a 400 (`InvalidState`) response and leaves the
store unchanged: no state change, no deletion, no new `AVAILABLE`
workout. -/
theorem cancelWorkout_inside_cutoff_rejected
    (store : List Workout) (now : Int) (userId workoutId : Nat) (w : Workout)
    (hfind : store.find? (fun x => x.id == workoutId) = some w)
    (hauth : w.coachId = userId ∨ w.clientId = some userId)
    (hcut : w.dateTime - now < 12 * 3600000) :
    (cancelWorkout store now userId workoutId).1.status = 400 ∧
    (cancelWorkout store now userId workoutId).2 = store := by
  unfold cancelWorkout
  rw [hfind]
  dsimp only
  have hguard : (!(w.coachId == userId) && !(w.clientId == some userId)) = false := by
    rcases hauth with h | h <;> simp [h]
  rw [hguard]
  rw [if_neg Bool.false_ne_true]
  by_cases hstate : (w.clientId == some userId && w.state != "SCHEDULED") = true
  · rw [if_pos hstate]
    exact ⟨rfl, rfl⟩
  · rw [if_neg hstate, if_pos hcut]
    exact ⟨rfl, rfl⟩

/-- Witness for C6: the sample client cancelling 11 h 59 min before the
start is rejected and the store is untouched. -/
theorem cancelWorkout_inside_cutoff_rejected_witness :
    (cancelWorkout [demoScheduled] (demoInstant - 43200000 + 60000) 7 1).1.status = 400 ∧
    (cancelWorkout [demoScheduled] (demoInstant - 43200000 + 60000) 7 1).2 = [demoScheduled] :=
  cancelWorkout_inside_cutoff_rejected [demoScheduled] (demoInstant - 43200000 + 60000) 7 1
    demoScheduled rfl (Or.inr rfl) (by decide)

/-- Claim C7.  When a booking reaches its write phase (all guards passed,
no live conflict, no `AVAILABLE` placeholder) and the store already holds a
workout with the same `(coachId, dateTime)` key, the duplicate-key failure
of the insert is remapped to a 409 `Conflict` response — never surfaced as
a 500 `Internal` error — and the store is unchanged. -/
theorem bookNewWorkout_duplicateKey_conflict
    (store : List Workout) (now : Int) (caller : Caller) (req : BookRequest)
    (coach : Coach) (slot : String) (year month day hours minutes : Nat)
    (hrole : caller.role = "CLIENT")
    (hne : (req.date == "" || req.timeSlot == "") = false)
    (hslot : coach.availableTimeSlots.find?
      (fun s => jsStartsWith s (convertTo12HourFormat req.timeSlot)) = some slot)
    (hdate : validateBookDate req.date = .ok (year, month, day))
    (hhm : parseHM (bookStartTime req.timeSlot) = some (hours, minutes))
    (hlead : ¬ dateUTC year month day hours minutes < now + istOffsetMs + 30 * 60000)
    (hnoclient : store.any (fun w => w.clientId == some caller.id &&
        w.dateTime == dateUTC year month day hours minutes &&
        (w.state == "SCHEDULED" || w.state == "IN_PROGRESS")) = false)
    (hnocoach : store.any (fun w => w.coachId == coach.id &&
        w.dateTime == dateUTC year month day hours minutes &&
        (w.state == "SCHEDULED" || w.state == "IN_PROGRESS")) = false)
    (hnoavail : store.find? (fun w => w.coachId == coach.id &&
        w.dateTime == dateUTC year month day hours minutes && w.state == "AVAILABLE") = none)
    (hdup : hasKeyConflict store coach.id (dateUTC year month day hours minutes) = true) :
    bookNewWorkout store now caller req (some coach) =
      (⟨409, "This time slot is already booked. Please try a different time or date."⟩,
       store) := by
  have hfut : now < dateUTC year month day hours minutes := by
    have h30 : now + istOffsetMs + 30 * 60000 ≤ dateUTC year month day hours minutes :=
      not_lt.mp hlead
    have : (0 : Int) < istOffsetMs := by decide
    omega
  unfold bookNewWorkout
  try dsimp only
  rw [if_neg (by simp [hrole]), if_neg (by simp [hne])]
  try dsimp only
  rw [hslot]
  try dsimp only
  rw [hdate]
  try dsimp only
  rw [hhm]
  try dsimp only
  rw [if_neg hlead]
  rw [if_neg (by simp [hnoclient]), if_neg (by simp [hnocoach]), hnoavail]
  try dsimp only
  have hins : insertWorkout store now
      { id := freshWorkoutId store
        name := coach.preferableActivity ++ " class"
        activity := coach.preferableActivity
        description := coach.preferableActivity ++ " class with coach " ++
          coach.firstName ++ " " ++ coach.lastName
        dateTime := dateUTC year month day hours minutes
        coachId := coach.id
        clientId := some caller.id
        state := "SCHEDULED" } = .error .duplicateKey := by
    unfold insertWorkout
    rw [if_pos (show ("SCHEDULED" : String) ∈ workoutStateEnum from by decide),
      if_pos hfut, if_pos hdup]
  rw [hins]

/-- Witness for C7: booking the sample slot while a `CANCELED` workout
holds the same `(coachId, dateTime)` key answers 409, not 500. -/
theorem bookNewWorkout_duplicateKey_conflict_witness :
    bookNewWorkout [{ demoScheduled with state := "CANCELED" }] 0 ⟨7, "CLIENT"⟩
        ⟨"2026-01-10", "10:30"⟩ (some demoCoach) =
      (⟨409, "This time slot is already booked. Please try a different time or date."⟩,
       [{ demoScheduled with state := "CANCELED" }]) :=
  bookNewWorkout_duplicateKey_conflict [{ demoScheduled with state := "CANCELED" }] 0
    ⟨7, "CLIENT"⟩ ⟨"2026-01-10", "10:30"⟩ demoCoach "10:30 AM - 11:30 AM" 2026 1 10 10 30
    rfl rfl rfl rfl rfl (by decide) rfl rfl rfl rfl

/-- Claim C8.  For a booking request with a valid date and a time slot
matching the coach's template: a requested instant strictly earlier than
the current instant in the fixed UTC+5:30 offset plus 30 minutes is
rejected with 400 `InvalidInput` and the store is unchanged; an instant
exactly at that bound passes the lead-time check, and with a conflict-free
store the booking succeeds with 201. -/
theorem bookNewWorkout_lead_time_boundary
    (store : List Workout) (now : Int) (caller : Caller) (req : BookRequest)
    (coach : Coach) (slot : String) (year month day hours minutes : Nat)
    (hrole : caller.role = "CLIENT")
    (hne : (req.date == "" || req.timeSlot == "") = false)
    (hslot : coach.availableTimeSlots.find?
      (fun s => jsStartsWith s (convertTo12HourFormat req.timeSlot)) = some slot)
    (hdate : validateBookDate req.date = .ok (year, month, day))
    (hhm : parseHM (bookStartTime req.timeSlot) = some (hours, minutes)) :
    (dateUTC year month day hours minutes < now + istOffsetMs + 30 * 60000 →
      bookNewWorkout store now caller req (some coach) =
        (⟨400, "Workouts must be scheduled at least 30 minutes in advance from your local time."⟩,
         store)) ∧
    (dateUTC year month day hours minutes = now + istOffsetMs + 30 * 60000 →
      store.any (fun w => w.clientId == some caller.id &&
        w.dateTime == dateUTC year month day hours minutes &&
        (w.state == "SCHEDULED" || w.state == "IN_PROGRESS")) = false →
      store.any (fun w => w.coachId == coach.id &&
        w.dateTime == dateUTC year month day hours minutes &&
        (w.state == "SCHEDULED" || w.state == "IN_PROGRESS")) = false →
      store.find? (fun w => w.coachId == coach.id &&
        w.dateTime == dateUTC year month day hours minutes && w.state == "AVAILABLE") = none →
      hasKeyConflict store coach.id (dateUTC year month day hours minutes) = false →
      (bookNewWorkout store now caller req (some coach)).1 =
        ⟨201, "booked (new workout)"⟩) := by
  constructor
  · intro hlt
    unfold bookNewWorkout
    try dsimp only
    rw [if_neg (by simp [hrole]), if_neg (by simp [hne])]
    try dsimp only
    rw [hslot]
    try dsimp only
    rw [hdate]
    try dsimp only
    rw [hhm]
    try dsimp only
    rw [if_pos hlt]
  · intro heq hnoclient hnocoach hnoavail hnodup
    have hfut : now < dateUTC year month day hours minutes := by
      have h0 : (0 : Int) < istOffsetMs := by decide
      omega
    unfold bookNewWorkout
    try dsimp only
    rw [if_neg (by simp [hrole]), if_neg (by simp [hne])]
    try dsimp only
    rw [hslot]
    try dsimp only
    rw [hdate]
    try dsimp only
    rw [hhm]
    try dsimp only
    rw [if_neg (by rw [heq]; exact lt_irrefl _)]
    rw [if_neg (by simp [hnoclient]), if_neg (by simp [hnocoach]), hnoavail]
    try dsimp only
    rw [insertWorkout_ok_of _ _ _
      (show ("SCHEDULED" : String) ∈ workoutStateEnum from by decide) hfut hnodup]

/-- Witness for C8: the sample booking exactly 30 minutes ahead (in the
shifted clock) succeeds with 201; one millisecond inside the buffer it is
rejected with the lead-time message. -/
theorem bookNewWorkout_lead_time_boundary_witness :
    (bookNewWorkout [] (demoInstant - istOffsetMs - 1800000) ⟨7, "CLIENT"⟩
        ⟨"2026-01-10", "10:30"⟩ (some demoCoach)).1 = ⟨201, "booked (new workout)"⟩ ∧
    bookNewWorkout [] (demoInstant - istOffsetMs - 1800000 + 1) ⟨7, "CLIENT"⟩
        ⟨"2026-01-10", "10:30"⟩ (some demoCoach) =
      (⟨400, "Workouts must be scheduled at least 30 minutes in advance from your local time."⟩,
       []) :=
  ⟨(bookNewWorkout_lead_time_boundary [] (demoInstant - istOffsetMs - 1800000) ⟨7, "CLIENT"⟩
      ⟨"2026-01-10", "10:30"⟩ demoCoach "10:30 AM - 11:30 AM" 2026 1 10 10 30
      rfl rfl rfl rfl rfl).2 (by decide) rfl rfl rfl rfl,
   (bookNewWorkout_lead_time_boundary [] (demoInstant - istOffsetMs - 1800000 + 1) ⟨7, "CLIENT"⟩
      ⟨"2026-01-10", "10:30"⟩ demoCoach "10:30 AM - 11:30 AM" 2026 1 10 10 30
      rfl rfl rfl rfl rfl).1 (by decide)⟩

/-- Claim C9.  The claim says a second feedback by the same role on the
same workout is rejected with 400 "already provided" and no second
artifact is stored.  The mounted handler instead answers 500 (the
unresolved `mongoose` reference of line 7) for the duplicate call too —
though still storing no second artifact (first conjunct); the duplicate
guard behind that line would answer 400 "You have already provided
feedback for this workout." and store nothing (second conjunct). -/
theorem giveFeedback_duplicate_not_invalid_state :
    giveFeedback [{ demoScheduled with state := "WAITING FOR FEEDBACK FROM CLIENT" }]
        [⟨1, 1, 7, 5, "Earlier feedback", 5, "CLIENT"⟩] ⟨7, "CLIENT", 1, "Again", 4⟩ =
      (⟨500, "Internal Server Error."⟩,
       [{ demoScheduled with state := "WAITING FOR FEEDBACK FROM CLIENT" }],
       [⟨1, 1, 7, 5, "Earlier feedback", 5, "CLIENT"⟩]) ∧
    giveFeedbackBody [{ demoScheduled with state := "WAITING FOR FEEDBACK FROM CLIENT" }]
        [⟨1, 1, 7, 5, "Earlier feedback", 5, "CLIENT"⟩] ⟨7, "CLIENT", 1, "Again", 4⟩ =
      (⟨400, "You have already provided feedback for this workout."⟩,
       [{ demoScheduled with state := "WAITING FOR FEEDBACK FROM CLIENT" }],
       [⟨1, 1, 7, 5, "Earlier feedback", 5, "CLIENT"⟩]) :=
  ⟨rfl, rfl⟩

/-- Claim C10.  The Workout schema's `state` enum lists the two
feedback-waiting states only as one merged string, so neither individual
string is a valid enum value: every insert or update persisting either
state fails validation, and consequently no workout store reachable from
the empty store by any sequence of API calls contains a workout in a
feedback-waiting state. -/
theorem workoutStateEnum_merges_feedback_waiting_states :
    ("WAITING FOR FEEDBACK FROM CLIENT" ∉ workoutStateEnum ∧
     "WAITING FOR FEEDBACK FROM COACH" ∉ workoutStateEnum ∧
     "WAITING FOR FEEDBACK FROM CLIENT, WAITING FOR FEEDBACK FROM COACH" ∈ workoutStateEnum) ∧
    (∀ (store : List Workout) (now : Int) (w : Workout),
      w.state = "WAITING FOR FEEDBACK FROM CLIENT" ∨
        w.state = "WAITING FOR FEEDBACK FROM COACH" →
      insertWorkout store now w = .error .validation ∧
      saveWorkoutUpdate store w = .error .validation) ∧
    (∀ s : Sys, Reachable ⟨[], []⟩ s → ∀ w ∈ s.workouts,
      w.state ≠ "WAITING FOR FEEDBACK FROM CLIENT" ∧
      w.state ≠ "WAITING FOR FEEDBACK FROM COACH") := by
  refine ⟨by decide, ?_, ?_⟩
  · intro store now w hst
    have hnot : ¬ w.state ∈ workoutStateEnum := by
      rcases hst with h | h <;> rw [h] <;> decide
    constructor
    · unfold insertWorkout
      rw [if_neg hnot]
    · unfold saveWorkoutUpdate
      rw [if_neg hnot]
  · intro s hreach w hw
    have hv : statesValid s.workouts :=
      reachable_statesValid hreach (fun w hw => absurd hw (List.not_mem_nil w))
    have hmem := hv w hw
    constructor
    · intro h
      rw [h] at hmem
      exact absurd hmem (by decide)
    · intro h
      rw [h] at hmem
      exact absurd hmem (by decide)

/-- Witness for C10: persisting the client-feedback-waiting state fails
both as insert and as update, and the store reached by one successful
sample booking holds no feedback-waiting workout. -/
theorem workoutStateEnum_merges_feedback_waiting_states_witness :
    (insertWorkout [] 0 { demoScheduled with state := "WAITING FOR FEEDBACK FROM CLIENT" } =
        .error .validation ∧
      saveWorkoutUpdate [] { demoScheduled with state := "WAITING FOR FEEDBACK FROM CLIENT" } =
        .error .validation) ∧
    (∀ w ∈ (Sys.mk
        (bookNewWorkout [] (demoInstant - istOffsetMs - 1800000) ⟨7, "CLIENT"⟩
          ⟨"2026-01-10", "10:30"⟩ (some demoCoach)).2 []).workouts,
      w.state ≠ "WAITING FOR FEEDBACK FROM CLIENT" ∧
      w.state ≠ "WAITING FOR FEEDBACK FROM COACH") :=
  ⟨workoutStateEnum_merges_feedback_waiting_states.2.1 [] 0
      { demoScheduled with state := "WAITING FOR FEEDBACK FROM CLIENT" } (Or.inl rfl),
   workoutStateEnum_merges_feedback_waiting_states.2.2 _
      (Relation.ReflTransGen.single
        (Step.book ⟨[], []⟩ (demoInstant - istOffsetMs - 1800000) ⟨7, "CLIENT"⟩
          ⟨"2026-01-10", "10:30"⟩ (some demoCoach)))⟩

end EnergyX
